import Mathlib

/-!
Shallow embedding of the rules engine of `tetris-bevy` (src/main.rs and
src/tetrominoes.rs) together with theorems settling the specification
claims.  Machine integers (`i8` coordinates, `u32` score, `u8` line
counts) stay well inside their ranges in all modelled scenarios, and are
embedded as `Int`/`Nat`; `std::time::Duration` is embedded as a pair of
second/nanosecond counters with the integer division and multiplication
used by the Rust standard library.
-/

namespace TetrisBevy

/-- Rust `const ROWS: usize = 20` (main.rs). -/
def ROWS : Nat := 20

/-- Rust `const COLUMNS: usize = 10` (main.rs). -/
def COLUMNS : Nat := 10

/-- Rust `struct Tile { x: i8, y: i8 }` (main.rs): the absolute grid position of
one cell of a piece (settled or falling).  The `i8` fields are embedded as
`Int`; every coordinate arising in play lies in `[-2, 26]`. -/
structure Tile where
  x : Int
  y : Int
deriving DecidableEq

/-- Rust `struct FallingSegment { x_offset: i8, y_offset: i8 }` (main.rs): the
offset of one cell of the falling piece from the piece's focal point. -/
structure FallingSegment where
  x_offset : Int
  y_offset : Int
deriving DecidableEq

/-- Rust `FallingSegment::rotate_clockwise` (main.rs lines 51-56):
`(ox, oy) -> (oy, -ox)`. -/
def rotate_clockwise (s : FallingSegment) : FallingSegment :=
  { x_offset := s.y_offset, y_offset := -s.x_offset }

/-- Rust `FallingSegment::rotate_counterclockwise` (main.rs lines 58-63):
`(ox, oy) -> (-oy, ox)`. -/
def rotate_counterclockwise (s : FallingSegment) : FallingSegment :=
  { x_offset := -s.y_offset, y_offset := s.x_offset }

/-- A tetromino template: exactly four pivot-relative offsets
(tetrominoes.rs; the display color is irrelevant to the claims). -/
structure Tetromino where
  shape : List FallingSegment

/-- Rust `const I` (tetrominoes.rs). -/
def I : Tetromino := ⟨[⟨0, 0⟩, ⟨-1, 0⟩, ⟨1, 0⟩, ⟨2, 0⟩]⟩

/-- Rust `const T` (tetrominoes.rs). -/
def T : Tetromino := ⟨[⟨0, 0⟩, ⟨-1, 0⟩, ⟨1, 0⟩, ⟨0, 1⟩]⟩

/-- Rust `const J` (tetrominoes.rs). -/
def J : Tetromino := ⟨[⟨0, 0⟩, ⟨-1, 0⟩, ⟨1, 0⟩, ⟨1, 1⟩]⟩

/-- Rust `const L` (tetrominoes.rs). -/
def L : Tetromino := ⟨[⟨0, 0⟩, ⟨-1, 0⟩, ⟨-1, 1⟩, ⟨1, 0⟩]⟩

/-- Rust `const Z` (tetrominoes.rs). -/
def Z : Tetromino := ⟨[⟨0, 0⟩, ⟨0, 1⟩, ⟨-1, 1⟩, ⟨1, 0⟩]⟩

/-- Rust `const S` (tetrominoes.rs). -/
def S : Tetromino := ⟨[⟨0, 0⟩, ⟨0, 1⟩, ⟨-1, 0⟩, ⟨1, 1⟩]⟩

/-- Rust `const O` (tetrominoes.rs lines 140-160): offsets
`(0,0), (0,1), (-1,0), (-1,1)`. -/
def O : Tetromino := ⟨[⟨0, 0⟩, ⟨0, 1⟩, ⟨-1, 0⟩, ⟨-1, 1⟩]⟩

/-- Rust `struct FullGrid([[bool; COLUMNS]; ROWS + 4])` (main.rs line 70): the
settled-cell field, 4 buffer rows above the 20 visible ones.  Embedded as a
total function `row -> column -> Bool`; only the region
`y < ROWS + 4, x < COLUMNS` is ever read by the operations below, matching
the array's extent. -/
abbrev Grid := Nat → Nat → Bool

/-- Rust `FullGrid::empty` (main.rs lines 72-74). -/
def FullGrid.empty : Grid := fun _ _ => false

/-- The row-fullness test `full_grid.0[y] == [true; COLUMNS]`
(main.rs line 290). -/
def row_full (g : Grid) (y : Nat) : Bool :=
  decide (∀ x, x < COLUMNS → g y x = true)

/-- Rust `full_grid.0[y..].rotate_left(1)` followed by
`*full_grid.0.last_mut().unwrap() = [false; COLUMNS]`
(main.rs lines 291-292): every row index at or above `y` receives the row
previously one higher, and the top row `ROWS + 3` becomes empty. -/
def shift_down (g : Grid) (y : Nat) : Grid :=
  fun i x => if i < y then g i x else if i = ROWS + 3 then false else g (i + 1) x

/-- One tile entity of the ECS world: its `Tile` position and, when the
entity is a cell of the currently falling piece, its `FallingSegment`
component (`none` for settled tiles).  The query
`tiles: Query<(Entity, &mut Tile)>` in `clear_rows` (main.rs line 282)
matches both kinds. -/
abbrev Ent := Tile × Option FallingSegment

/-- The per-cleared-row entity pass of `clear_rows` (main.rs lines
293-301): for each tile entity, `tile.y.cmp(&(y as i8))` — below the
cleared row: unchanged; on it: despawned; above it: `tile.y -= 1`.  The
`FallingSegment` component, when present, is untouched. -/
def clear_tiles_row (y : Int) (ts : List Ent) : List Ent :=
  ts.filterMap fun p =>
    if p.1.y < y then some p
    else if p.1.y = y then none
    else some (⟨p.1.x, p.1.y - 1⟩, p.2)

/-- The scan loop of `clear_rows` (main.rs lines 288-304):
`for y in (0..ROWS).rev()` — the first argument counts down, so the call
`clear_rows_aux (y+1) ..` examines row `y`.  A full row is rotated out of
the grid, the tile entities are updated, and the cleared counter is
incremented. -/
def clear_rows_aux : Nat → Grid → List Ent → Nat → Grid × List Ent × Nat
  | 0, g, ts, c => (g, ts, c)
  | y + 1, g, ts, c =>
      if row_full g y then
        clear_rows_aux y (shift_down g y) (clear_tiles_row (y : Int) ts) (c + 1)
      else
        clear_rows_aux y g ts c

/-- One full pass of the `clear_rows` system (main.rs lines 279-308),
excluding the `is_changed` early-out and the score update (modelled by
`update_score` below): returns the new grid, the new tile entities, and
the number of rows cleared. -/
def clear_rows (g : Grid) (ts : List Ent) : Grid × List Ent × Nat :=
  clear_rows_aux ROWS g ts 0

/-- Rust `lines_to_score` (main.rs lines 269-277).  The wildcard arm panics
(`"At most 4 lines can be cleared at once"`); the panic is embedded as
`none`. -/
def lines_to_score : Nat → Option Nat
  | 1 => some 100
  | 2 => some 300
  | 3 => some 500
  | 4 => some 800
  | _ => none

/-- The score update at the end of `clear_rows` (main.rs lines 305-307):
`if cleared != 0 { score.0 += lines_to_score(cleared) }`; a panic inside
`lines_to_score` propagates as `none`. -/
def update_score (score : Nat) (cleared : Nat) : Option Nat :=
  if cleared = 0 then some score
  else (lines_to_score cleared).map fun p => score + p

/-- Rust `enum GameState { GameOver, Playing }` (main.rs lines 32-36). -/
inductive GameState where
  | GameOver : GameState
  | Playing : GameState
deriving DecidableEq

/-- The loss test of `check_loss` (main.rs line 315):
`full_grid.0[ROWS..].iter().any(|row| *row != [false; 10])` — some buffer
row (index `ROWS + i`, `i < 4`) has an occupied cell. -/
def is_loss (g : Grid) : Bool :=
  (List.range 4).any fun i => (List.range COLUMNS).any fun x => g (ROWS + i) x

/-- The state transition of `check_loss` (main.rs lines 310-318), run in
the `Playing` state: when the loss test fires,
`game_state.set(GameState::GameOver)`. -/
def check_loss (g : Grid) (st : GameState) : GameState :=
  if is_loss g then GameState.GameOver else st

/-- Rust `in_bounds` (main.rs lines 320-324):
`(0..COLUMNS as i8).contains(&x) && (0..).contains(&y)`. -/
def in_bounds (x y : Int) : Bool :=
  decide (0 ≤ x ∧ x < (COLUMNS : Int)) && decide (0 ≤ y)

/-- Rust `is_full` (main.rs lines 214-216):
`y < ROWS as i8 && full_grid.0[y][x]`.  The `usize::try_from(..).unwrap()`
conversions are embedded as `Int.toNat`; every caller guards them behind
`in_bounds`, which forces `0 ≤ x` and `0 ≤ y`. -/
def is_full (x y : Int) (g : Grid) : Bool :=
  decide (y < (ROWS : Int)) && g y.toNat x.toNat

/-- Rust `can_fit` (main.rs lines 218-220): every candidate cell is in bounds
and not already settled. -/
def can_fit (segments : List Tile) (g : Grid) : Bool :=
  segments.all fun t => in_bounds t.x t.y && !is_full t.x t.y g

/-- Rust `can_fall` (main.rs lines 222-227): `can_fit` of every cell moved one
row down. -/
def can_fall (segments : List Tile) (g : Grid) : Bool :=
  can_fit (segments.map fun t => { x := t.x, y := t.y - 1 }) g

/-- Rust `update_segment` (main.rs lines 326-352): recover the focal point from
one cell, apply the requested horizontal moves to it, rotate the offset,
and recombine. -/
def update_segment (t : Tile) (s : FallingSegment) (left right z x : Bool) :
    Tile × FallingSegment :=
  let fx0 := t.x - s.x_offset
  let fy := t.y - s.y_offset
  let fx1 := if left then fx0 - 1 else fx0
  let fx2 := if right then fx1 + 1 else fx1
  let s1 := if z then rotate_counterclockwise s else s
  let s2 := if x then rotate_clockwise s1 else s1
  ({ x := fx2 + s2.x_offset, y := fy + s2.y_offset }, s2)

/-- The candidate cell positions computed by `handle_input`
(main.rs lines 375-380): `update_segment` applied to every falling entity,
keeping only the new `Tile`. -/
def candidate_tiles (piece : List (Tile × FallingSegment))
    (left right z x : Bool) : List Tile :=
  (piece.map fun p => update_segment p.1 p.2 left right z x).map fun p => p.1

/-- The movement part of `handle_input` (main.rs lines 354-394), omitting
the soft-drop timer update (modelled separately on `Duration`): when no
move or rotation was requested the system returns early; otherwise the
whole candidate is committed iff `can_fit` accepts it. -/
def handle_input (piece : List (Tile × FallingSegment))
    (left right z x : Bool) (g : Grid) : List (Tile × FallingSegment) :=
  if !left && !right && !z && !x then piece
  else if can_fit (candidate_tiles piece left right z x) g then
    piece.map fun p => update_segment p.1 p.2 left right z x
  else piece

/-- Rust `NANOS_PER_SEC` of `std::time::Duration`. -/
def NANOS_PER_SEC : Nat := 1000000000

/-- Rust `std::time::Duration`: whole seconds plus a nanosecond part
(`nanos < NANOS_PER_SEC` for every value built by the library). -/
structure Duration where
  secs : Nat
  nanos : Nat
deriving DecidableEq

/-- The soft-drop press branch of `handle_input` (main.rs lines 364-367):
`fall_timer.0.duration() / 3`.  Rust's `Duration::checked_div` divides the
seconds, converts the remainder to nanoseconds, and adds its third to the
divided nanosecond part — integer division throughout. -/
def Duration.div3 (d : Duration) : Duration :=
  { secs := d.secs / 3,
    nanos := d.nanos / 3 + d.secs % 3 * NANOS_PER_SEC / 3 }

/-- The soft-drop release branch of `handle_input` (main.rs lines
368-371): `fall_timer.0.duration() * 3`.  Rust's `Duration::checked_mul`
multiplies the nanosecond part and carries whole seconds out of it. -/
def Duration.mul3 (d : Duration) : Duration :=
  { secs := d.secs * 3 + d.nanos * 3 / NANOS_PER_SEC,
    nanos := d.nanos * 3 % NANOS_PER_SEC }

/-- The gravity timer period set in `start_game` (main.rs lines 160-163):
`Duration::from_secs_f32(1.0 / 5.0)`.  The `f32` value `0.2` is exactly
`13421773 / 2^26`; `from_secs_f32` converts it to nanoseconds rounded to
nearest (the value is not a tie, so the ties-to-even rule is moot), giving
`200000003 ns`.  (Older standard libraries computed the nanosecond count
in `f32` arithmetic, yielding `200000000 ns` — also not a multiple of 3,
so the soft-drop result below is unaffected.) -/
def defaultPeriod : Duration :=
  { secs := 0,
    nanos := (13421773 * NANOS_PER_SEC * 2 + 2 ^ 26) / (2 ^ 26 * 2) }

/-- Concrete grid: visible row 19 and buffer row 20 fully occupied,
everything else empty. -/
def rows_19_20_grid : Grid := fun y _ => decide (y = 19 ∨ y = 20)

/-- Concrete grid: rows 3 and 4 fully occupied, everything else empty. -/
def rows_3_4_grid : Grid := fun y _ => decide (y = 3 ∨ y = 4)

/-- Concrete grid: buffer row 20 fully occupied, everything else empty. -/
def loss_grid : Grid := fun y _ => decide (y = 20)

/-! ## Theorems -/

/-- Claim C9: applying the clockwise rotation `(ox, oy) -> (oy, -ox)` four
times in succession returns the original offset, and the orbit of the
offset `(1, 0)` visits the four pairwise distinct offsets
`(0, -1), (-1, 0), (0, 1)` before returning, so clockwise rotation
generates a cyclic group of order 4 on offsets. -/
theorem C9_rotation_order :
    (∀ s : FallingSegment,
        rotate_clockwise (rotate_clockwise (rotate_clockwise (rotate_clockwise s))) = s) ∧
    rotate_clockwise { x_offset := 1, y_offset := 0 } =
      { x_offset := 0, y_offset := -1 } ∧
    rotate_clockwise (rotate_clockwise { x_offset := 1, y_offset := 0 }) =
      { x_offset := -1, y_offset := 0 } ∧
    rotate_clockwise (rotate_clockwise (rotate_clockwise { x_offset := 1, y_offset := 0 })) =
      { x_offset := 0, y_offset := 1 } := by
  refine ⟨?_, by decide, by decide, by decide⟩
  rintro ⟨ox, oy⟩
  simp [rotate_clockwise]

/-- Claim C2 (counterexample): the offset `(1, 0)` appears in the image of
the O template's offsets under one clockwise rotation but is not one of the
O template's offsets — the rotation does not map the O offset set to
itself. -/
theorem C2_counterexample :
    ({ x_offset := 1, y_offset := 0 } : FallingSegment) ∈
        O.shape.map rotate_clockwise ∧
    decide (({ x_offset := 1, y_offset := 0 } : FallingSegment) ∈ O.shape) = false := by
  exact ⟨by decide, by decide⟩

/-- Claim C2 (amended): one clockwise rotation maps the O template's four
offsets to the same four offsets each translated by one column to the
right — the same multiset as `O.shape` shifted by `(+1, 0)`, not `O.shape`
itself. -/
theorem C2_amended :
    (O.shape.map rotate_clockwise).Perm
      (O.shape.map fun s => { x_offset := s.x_offset + 1, y_offset := s.y_offset }) := by
  decide

/-- Claim C8: `lines_to_score` maps 1 to 100, 2 to 300, 3 to 500 and 4 to
800 points, and on every other argument reaches the panicking wildcard arm
(embedded as `none`). -/
theorem C8_score :
    lines_to_score 1 = some 100 ∧ lines_to_score 2 = some 300 ∧
    lines_to_score 3 = some 500 ∧ lines_to_score 4 = some 800 ∧
    ∀ n : Nat, (n = 0 ∨ 5 ≤ n) → lines_to_score n = none := by
  refine ⟨rfl, rfl, rfl, rfl, ?_⟩
  intro n hn
  rcases hn with h | h
  · subst h; rfl
  · obtain ⟨m, rfl⟩ : ∃ m, n = m + 5 := ⟨n - 5, by omega⟩
    rfl

/-- Witness for C8: `lines_to_score` is `none` at 5 and `some 300` at 2. -/
theorem C8_score_witness : lines_to_score 5 = none ∧ lines_to_score 2 = some 300 :=
  ⟨C8_score.2.2.2.2 5 (Or.inr (by omega)), C8_score.2.1⟩

/-- Claim C1 (counterexample): the default gravity period
`Duration::from_secs_f32(1.0 / 5.0)` is `200000003 ns`; dividing it by 3
(soft-drop press) and multiplying the result by 3 (soft-drop release)
yields `200000001 ns`, so the round trip does not restore the period
(`decide (.. = ..) = false` states the inequality). -/
theorem C1_counterexample :
    defaultPeriod = { secs := 0, nanos := 200000003 } ∧
    defaultPeriod.div3.mul3 = { secs := 0, nanos := 200000001 } ∧
    decide (defaultPeriod.div3.mul3 = defaultPeriod) = false :=
  ⟨by decide, by decide, by decide⟩

/-- Claim C1 (amended): dividing a period by 3 and multiplying the result
by 3 restores it exactly when both its seconds and its nanoseconds
components are divisible by 3; the default period of 1/5 second
(`200000003 ns`) is not of this form and loses 2 ns per press/release
cycle. -/
theorem C1_amended (d : Duration) (hn9 : d.nanos < NANOS_PER_SEC)
    (hs : d.secs % 3 = 0) (hn : d.nanos % 3 = 0) :
    d.div3.mul3 = d := by
  obtain ⟨s, n⟩ := d
  simp only [NANOS_PER_SEC] at hn9
  simp only [Duration.div3, Duration.mul3, NANOS_PER_SEC]
  rw [Duration.mk.injEq]
  constructor <;> (simp only at hs hn ⊢; omega)

/-- Witness for C1's amended theorem at the period 3.6 s, whose seconds
and nanoseconds are both multiples of 3. -/
theorem C1_amended_witness :
    Duration.mul3 (Duration.div3 { secs := 3, nanos := 600000000 }) =
      { secs := 3, nanos := 600000000 } :=
  C1_amended { secs := 3, nanos := 600000000 } (by decide) (by decide) (by decide)

/-- Claim C7: the loss predicate holds iff some cell at a row index at or
above the visible height (and within the grid's 24 rows) is occupied, and
when it holds the `check_loss` system moves the game state from `Playing`
to `GameOver`. -/
theorem C7_loss (g : Grid) :
    (is_loss g = true ↔
      ∃ y, ROWS ≤ y ∧ y < ROWS + 4 ∧ ∃ x, x < COLUMNS ∧ g y x = true) ∧
    (is_loss g = true → check_loss g GameState.Playing = GameState.GameOver) := by
  constructor
  · simp only [is_loss, List.any_eq_true, List.mem_range]
    constructor
    · rintro ⟨i, hi, x, hx, hgx⟩
      exact ⟨ROWS + i, by omega, by omega, x, hx, hgx⟩
    · rintro ⟨y, hy1, hy2, x, hx, hgx⟩
      refine ⟨y - ROWS, by omega, x, hx, ?_⟩
      have hy : ROWS + (y - ROWS) = y := by omega
      rw [hy]
      exact hgx
  · intro h
    simp [check_loss, h]

/-- Witness for C7 on the grid whose buffer row 20 is occupied. -/
theorem C7_loss_witness :
    check_loss loss_grid GameState.Playing = GameState.GameOver :=
  (C7_loss loss_grid).2 (by decide)

/-- The per-cell test of `can_fit`, characterised: a candidate cell passes
iff it is horizontally in bounds, not below row 0, and not occupied, where
any row at or above the visible height counts as unoccupied. -/
theorem fit_cell_iff (t : Tile) (g : Grid) :
    (in_bounds t.x t.y && !is_full t.x t.y g) = true ↔
      (0 ≤ t.x ∧ t.x < (COLUMNS : Int)) ∧ 0 ≤ t.y ∧
        (t.y < (ROWS : Int) → g t.y.toNat t.x.toNat = false) := by
  simp only [in_bounds, is_full, Bool.and_eq_true, Bool.not_eq_true',
    Bool.and_eq_false_iff, decide_eq_true_eq, decide_eq_false_iff_not]
  constructor
  · rintro ⟨⟨hb, hy⟩, hocc⟩
    refine ⟨hb, hy, fun hlt => ?_⟩
    rcases hocc with hocc | hocc
    · exact absurd hlt hocc
    · exact hocc
  · rintro ⟨hb, hy, himp⟩
    refine ⟨⟨hb, hy⟩, ?_⟩
    by_cases hlt : t.y < (ROWS : Int)
    · exact Or.inr (himp hlt)
    · exact Or.inl hlt

/-- Claim C4: `can_fit` returns true iff every candidate cell `(x, y)`
satisfies `0 ≤ x < COLUMNS`, `y ≥ 0`, and is not occupied — where a cell
with `y ≥ ROWS` is reported unoccupied by `is_full` regardless of the
buffer rows' contents. -/
theorem C4_fit (cells : List Tile) (g : Grid) :
    (can_fit cells g = true ↔
      ∀ t ∈ cells, (0 ≤ t.x ∧ t.x < (COLUMNS : Int)) ∧ 0 ≤ t.y ∧
        (t.y < (ROWS : Int) → g t.y.toNat t.x.toNat = false)) ∧
    (∀ x y : Int, (ROWS : Int) ≤ y → is_full x y g = false) := by
  constructor
  · rw [can_fit, List.all_eq_true]
    exact ⟨fun h t ht => (fit_cell_iff t g).mp (h t ht),
      fun h t ht => (fit_cell_iff t g).mpr (h t ht)⟩
  · intro x y hy
    simp only [is_full]
    have hdec : decide (y < (ROWS : Int)) = false := decide_eq_false (by omega)
    rw [hdec, Bool.false_and]

/-- Witness for C4: a single in-bounds cell fits the empty grid, and
`is_full` reports the skyline cell `(0, 20)` free. -/
theorem C4_fit_witness :
    can_fit [{ x := 3, y := 5 }] FullGrid.empty = true ∧
    is_full 0 20 FullGrid.empty = false :=
  ⟨(C4_fit [{ x := 3, y := 5 }] FullGrid.empty).1.mpr (by decide),
   (C4_fit [{ x := 3, y := 5 }] FullGrid.empty).2 0 20 (by decide)⟩

/-- With no move or rotation requested, `update_segment` leaves the cell
and offset unchanged. -/
theorem update_segment_id (p : Tile × FallingSegment) :
    update_segment p.1 p.2 false false false false = p := by
  obtain ⟨⟨tx, ty⟩, ⟨ox, oy⟩⟩ := p
  simp [update_segment]

/-- Claim C5: input handling is atomic — for every falling-piece state,
grid, and combination of requested moves/rotations, if `can_fit` rejects
the combined candidate then `handle_input` leaves every cell position and
every rotation offset unchanged; if it accepts, every entity receives its
updated cell and offset together. -/
theorem C5_atomic (piece : List (Tile × FallingSegment)) (l r z x : Bool)
    (g : Grid) :
    (can_fit (candidate_tiles piece l r z x) g = false →
      handle_input piece l r z x g = piece) ∧
    (can_fit (candidate_tiles piece l r z x) g = true →
      handle_input piece l r z x g =
        piece.map fun p => update_segment p.1 p.2 l r z x) := by
  by_cases hg : (!l && !r && !z && !x) = true
  · have hid : handle_input piece l r z x g = piece := by
      simp only [handle_input]
      rw [if_pos hg]
    simp only [Bool.and_eq_true, Bool.not_eq_true'] at hg
    obtain ⟨⟨⟨hl, hr⟩, hz⟩, hx⟩ := hg
    subst hl; subst hr; subst hz; subst hx
    have hmap : ∀ q : List (Tile × FallingSegment),
        (q.map fun p => update_segment p.1 p.2 false false false false) = q := by
      intro q
      induction q with
      | nil => rfl
      | cons a t ih =>
        simp only [List.map_cons]
        rw [update_segment_id a, ih]
    exact ⟨fun _ => hid, fun _ => hid.trans (hmap piece).symm⟩
  · constructor
    · intro hcf
      simp only [handle_input]
      rw [if_neg hg, if_neg (by simp [hcf])]
    · intro hcf
      simp only [handle_input]
      rw [if_neg hg, if_pos hcf]

/-- Witness for C5: a single-cell piece asked to move right on the empty
grid fits, and all its state is committed. -/
theorem C5_atomic_witness :
    handle_input [({ x := 4, y := 5 }, { x_offset := 0, y_offset := 0 })]
      false true false false FullGrid.empty =
      [({ x := 5, y := 5 }, { x_offset := 0, y_offset := 0 })] := by
  rw [(C5_atomic [({ x := 4, y := 5 }, { x_offset := 0, y_offset := 0 })]
    false true false false FullGrid.empty).2 (by decide)]
  decide

/-- Claim C10: the entity pass of `clear_rows` for a cleared row `y` acts
on every tile entity — the quantification over `ts` includes entities
whose `Option FallingSegment` component is `some _`, i.e. the cells of the
currently falling piece, alongside settled tiles: entities on row `y` are
removed and every entity above row `y` has its y-coordinate decremented,
its other components untouched. -/
theorem C10_tiles (y : Int) (ts : List Ent) :
    clear_tiles_row y ts =
      (ts.filter fun p => decide (p.1.y ≠ y)).map
        fun p => if y < p.1.y then ({ x := p.1.x, y := p.1.y - 1 }, p.2) else p := by
  induction ts with
  | nil => rfl
  | cons a t ih =>
    simp only [clear_tiles_row] at ih ⊢
    rcases lt_trichotomy a.1.y y with h | h | h
    · simp [List.filterMap_cons, List.filter_cons, h, ne_of_lt h,
        not_lt_of_gt h, ih]
    · simp [List.filterMap_cons, List.filter_cons, h, ih]
    · simp [List.filterMap_cons, List.filter_cons, h, ne_of_gt h,
        not_lt_of_gt h, ih]

/-- If no row at index `k` or above (within the grid's 24 rows) is full
when the scan reaches index `k`, then after the scan finishes no row of
the resulting grid is full: shifting rows down after a clear can only move
an already-examined non-full row or a non-full buffer row (or the fresh
empty top row) into an unexamined position. -/
theorem clear_rows_aux_no_full :
    ∀ (k : Nat) (g : Grid) (ts : List Ent) (c : Nat),
      (∀ i, k ≤ i → i < ROWS + 4 → row_full g i = false) →
      ∀ i, i < ROWS + 4 → row_full (clear_rows_aux k g ts c).1 i = false
  | 0, _, _, _, h => fun i hi => h i (Nat.zero_le i) hi
  | k + 1, g, ts, c, h => by
    by_cases hf : row_full g k = true
    · rw [clear_rows_aux, if_pos hf]
      apply clear_rows_aux_no_full k _ _ _
      intro j hjk hj4
      by_cases hj : j = ROWS + 3
      · subst hj
        have hcell : ∀ x, shift_down g k (ROWS + 3) x = false := fun x => by
          simp only [shift_down]
          rw [if_neg (by omega)]
          simp
        simp only [row_full, hcell]
        decide
      · have hcell : ∀ x, shift_down g k j x = g (j + 1) x := fun x => by
          simp only [shift_down]
          rw [if_neg (by omega), if_neg hj]
        simp only [row_full, hcell]
        have hfj := h (j + 1) (by omega) (by omega)
        simpa only [row_full] using hfj
    · rw [clear_rows_aux, if_neg hf]
      rw [Bool.not_eq_true] at hf
      apply clear_rows_aux_no_full k _ _ _
      intro j hjk hj4
      rcases Nat.eq_or_lt_of_le hjk with hEq | hLt
      · rw [← hEq]
        exact hf
      · exact h j hLt hj4

/-- A scan over rows none of which is full clears nothing and changes
nothing. -/
theorem clear_rows_aux_of_no_full :
    ∀ (k : Nat) (g : Grid) (ts : List Ent) (c : Nat),
      (∀ i, i < k → row_full g i = false) →
      clear_rows_aux k g ts c = (g, ts, c)
  | 0, _, _, _, _ => rfl
  | k + 1, g, ts, c, h => by
    have hk : row_full g k = false := h k (Nat.lt_succ_self k)
    rw [clear_rows_aux, if_neg (by simp [hk])]
    exact clear_rows_aux_of_no_full k g ts c fun i hi => h i (Nat.lt_succ_of_lt hi)

/-- Claim C3 (amended): for every grid whose four buffer rows (indices 20
to 23) each contain at least one empty cell — in particular every grid
reachable without settling a full row above the skyline — running the
row-clearing pass once and then immediately a second time makes the second
pass return 0 cleared rows. -/
theorem C3_amended (g : Grid) (ts ts2 : List Ent)
    (hbuf : ∀ i, ROWS ≤ i → i < ROWS + 4 → row_full g i = false) :
    (clear_rows (clear_rows g ts).1 ts2).2.2 = 0 := by
  have h1 : ∀ i, i < ROWS + 4 →
      row_full (clear_rows_aux ROWS g ts 0).1 i = false :=
    clear_rows_aux_no_full ROWS g ts 0 hbuf
  have h2 := clear_rows_aux_of_no_full ROWS (clear_rows g ts).1 ts2 0
    fun i hi => h1 i (by omega)
  simp only [clear_rows] at h2 ⊢
  rw [h2]

/-- Witness for C3's amended theorem on the empty grid. -/
theorem C3_amended_witness :
    (clear_rows (clear_rows FullGrid.empty []).1 []).2.2 = 0 :=
  C3_amended FullGrid.empty [] [] fun i _ _ => by
    have hcell : ∀ x, FullGrid.empty i x = false := fun _ => rfl
    simp only [row_full, hcell]
    decide

/-- Claim C3 (counterexample): on the grid whose visible row 19 and buffer
row 20 are both fully occupied, the first row-clearing pass clears row 19
and shifts the full buffer row down into the visible area, so the second
pass returns 1, not 0 (`decide (.. = 0) = false` states the failure). -/
theorem C3_counterexample :
    (clear_rows rows_19_20_grid []).2.2 = 1 ∧
    (clear_rows (clear_rows rows_19_20_grid []).1 []).2.2 = 1 ∧
    decide ((clear_rows (clear_rows rows_19_20_grid []).1 []).2.2 = 0) = false :=
  ⟨by decide, by decide, by decide⟩

/-- Claim C6: on the grid whose rows 3 and 4 are fully occupied and all
other cells empty, one row-clearing pass reports 2 cleared rows, leaves
every cell of the grid empty (both rows removed and the empty rows above
shifted down by two, with empty rows inserted at the top), and the score
update adds exactly 300 points. -/
theorem C6_two_rows :
    (clear_rows rows_3_4_grid []).2.2 = 2 ∧
    (∀ y, y < ROWS + 4 → ∀ x, x < COLUMNS →
      (clear_rows rows_3_4_grid []).1 y x = false) ∧
    (∀ s : Nat, update_score s (clear_rows rows_3_4_grid []).2.2 = some (s + 300)) := by
  refine ⟨by decide, by decide, ?_⟩
  intro s
  have hc : (clear_rows rows_3_4_grid []).2.2 = 2 := by decide
  rw [hc]
  simp [update_score, lines_to_score]

/-- Witness for C6: the cleared grid's bottom-left cell is empty and a
score of 7 becomes 307. -/
theorem C6_two_rows_witness :
    (clear_rows rows_3_4_grid []).1 0 0 = false ∧
    update_score 7 (clear_rows rows_3_4_grid []).2.2 = some (7 + 300) :=
  ⟨C6_two_rows.2.1 0 (by decide) 0 (by decide), C6_two_rows.2.2 7⟩

end TetrisBevy
